import Mathlib

/-!
Shallow embedding of the Rox_Chain fee core:
  src/sdk/program/src/fee_calculator.rs  (FeeCalculator, FeeRateGovernor)
  src/sdk/program/src/native_token.rs    (LAMPORTS_PER_ROX, Rox formatting)

Machine integers are modelled as `Nat` with explicit reduction modulo `2^64`
exactly where the Rust release build would wrap (the crate carries
`#![allow(clippy::arithmetic_side_effects)]`, i.e. plain unchecked arithmetic,
which in release builds wraps silently).  All definitions are executable.
-/

/-- `2^64`, the modulus of Rust `u64` arithmetic. -/
def U64_MOD : Nat := 18446744073709551616

/-- The `Message` abstraction consumed by the (deprecated) fee path: a
required-signature count and a list of instructions, each an opaque program
id plus data bytes.  `calculate_fee` ignores all of it. -/
structure Instruction where
  program_id : Nat
  data : List Nat
deriving DecidableEq

structure Message where
  num_required_signatures : Nat
  instructions : List Instruction
deriving DecidableEq

/-- `FeeCalculator` from fee_calculator.rs: one `u64` field. -/
structure FeeCalculator where
  lamports_per_signature : Nat
deriving DecidableEq

/-- `FeeRateGovernor` from fee_calculator.rs.  `burn_percent` is a `u8`
field (values `0..=255`); nothing in the type restricts it to `0..=100`. -/
structure FeeRateGovernor where
  lamports_per_signature : Nat
  target_lamports_per_signature : Nat
  target_signatures_per_slot : Nat
  min_lamports_per_signature : Nat
  max_lamports_per_signature : Nat
  burn_percent : Nat
deriving DecidableEq

/-- `pub const CONSTANT_TRANSACTION_FEE_LAMPORTS: u64 = 10_000;` -/
def CONSTANT_TRANSACTION_FEE_LAMPORTS : Nat := 10000

/-- `pub const DEFAULT_TARGET_LAMPORTS_PER_SIGNATURE: u64 = CONSTANT_TRANSACTION_FEE_LAMPORTS;` -/
def DEFAULT_TARGET_LAMPORTS_PER_SIGNATURE : Nat := CONSTANT_TRANSACTION_FEE_LAMPORTS

/-- `pub const DEFAULT_TARGET_SIGNATURES_PER_SLOT: u64 = 0;` -/
def DEFAULT_TARGET_SIGNATURES_PER_SLOT : Nat := 0

/-- `pub const DEFAULT_BURN_PERCENT: u8 = 0;` -/
def DEFAULT_BURN_PERCENT : Nat := 0

/-- `FeeCalculator::new`: stores the value verbatim. -/
def FeeCalculator.new (lamports_per_signature : Nat) : FeeCalculator :=
  { lamports_per_signature }

/-- `FeeCalculator::default()` (derived `Default`): the zero fee. -/
def FeeCalculator.default : FeeCalculator :=
  { lamports_per_signature := 0 }

/-- `FeeCalculator::calculate_fee`: returns
`DEFAULT_TARGET_LAMPORTS_PER_SIGNATURE` unconditionally, ignoring both the
stored fee and the message (deprecated fixed-fee path). -/
def FeeCalculator.calculate_fee (self : FeeCalculator) (message : Message) : Nat :=
  DEFAULT_TARGET_LAMPORTS_PER_SIGNATURE

/-- `impl Default for FeeRateGovernor`. -/
def FeeRateGovernor.default : FeeRateGovernor :=
  { lamports_per_signature := CONSTANT_TRANSACTION_FEE_LAMPORTS
    target_lamports_per_signature := CONSTANT_TRANSACTION_FEE_LAMPORTS
    target_signatures_per_slot := 0
    min_lamports_per_signature := CONSTANT_TRANSACTION_FEE_LAMPORTS
    max_lamports_per_signature := CONSTANT_TRANSACTION_FEE_LAMPORTS
    burn_percent := DEFAULT_BURN_PERCENT }

/-- `FeeRateGovernor::new_derived`: clones the base and then forces every
fee-rate field to the constant and the throughput target to 0; only
`burn_percent` survives from the base. -/
def FeeRateGovernor.new_derived (base_fee_rate_governor : FeeRateGovernor)
    (latest_signatures_per_slot : Nat) : FeeRateGovernor :=
  { base_fee_rate_governor with
    lamports_per_signature := CONSTANT_TRANSACTION_FEE_LAMPORTS
    target_lamports_per_signature := CONSTANT_TRANSACTION_FEE_LAMPORTS
    min_lamports_per_signature := CONSTANT_TRANSACTION_FEE_LAMPORTS
    max_lamports_per_signature := CONSTANT_TRANSACTION_FEE_LAMPORTS
    target_signatures_per_slot := 0 }

/-- `FeeRateGovernor::new`: builds a base governor whose explicit fields are
all the constant (with `..FeeRateGovernor::default()` filling `burn_percent`)
and derives from it with throughput 0; both arguments are ignored. -/
def FeeRateGovernor.new (target_lamports_per_signature target_signatures_per_slot : Nat) :
    FeeRateGovernor :=
  let base_fee_rate_governor : FeeRateGovernor :=
    { FeeRateGovernor.default with
      target_lamports_per_signature := CONSTANT_TRANSACTION_FEE_LAMPORTS
      lamports_per_signature := CONSTANT_TRANSACTION_FEE_LAMPORTS
      target_signatures_per_slot := 0
      min_lamports_per_signature := CONSTANT_TRANSACTION_FEE_LAMPORTS
      max_lamports_per_signature := CONSTANT_TRANSACTION_FEE_LAMPORTS }
  FeeRateGovernor.new_derived base_fee_rate_governor 0

/-- `FeeRateGovernor::clone_with_lamports_per_signature`: copy with only
`lamports_per_signature` overridden. -/
def FeeRateGovernor.clone_with_lamports_per_signature (self : FeeRateGovernor)
    (lamports_per_signature : Nat) : FeeRateGovernor :=
  { self with lamports_per_signature }

/-- `FeeRateGovernor::burn`:
`let burned = fees * u64::from(self.burn_percent) / 100; (fees - burned, burned)`.
Release-build `u64` semantics: the multiplication wraps modulo `2^64`, and so
does the subtraction (modelled as `(fees + 2^64 - burned) % 2^64`). -/
def FeeRateGovernor.burn (self : FeeRateGovernor) (fees : Nat) : Nat × Nat :=
  let burned := fees * self.burn_percent % U64_MOD / 100
  ((fees + U64_MOD - burned) % U64_MOD, burned)

/-- `FeeRateGovernor::create_fee_calculator`: snapshot of
`lamports_per_signature`. -/
def FeeRateGovernor.create_fee_calculator (self : FeeRateGovernor) : FeeCalculator :=
  FeeCalculator.new self.lamports_per_signature

/-- `pub const LAMPORTS_PER_ROX: u64 = 1_000_000_000;` -/
def LAMPORTS_PER_ROX : Nat := 1000000000

/-- `Rox(pub u64)` from native_token.rs. -/
structure Rox where
  val : Nat
deriving DecidableEq

/-- Little-endian decimal digits of `n`, rendered as characters, with explicit
fuel so the definition is structurally recursive (fuel `n` is always enough). -/
def decDigitsAux : Nat → Nat → List Char
  | 0, _ => []
  | _ + 1, 0 => []
  | fuel + 1, n + 1 => Char.ofNat (48 + (n + 1) % 10) :: decDigitsAux fuel ((n + 1) / 10)

/-- Decimal rendering of a natural number, as Rust `{}` formatting produces. -/
def natDecStr (n : Nat) : String :=
  if n = 0 then "0" else String.mk (decDigitsAux n n).reverse

/-- Zero-padding to width `w`, as Rust `{:09}` formatting produces for `w = 9`. -/
def zeroPad (w : Nat) (s : String) : String :=
  String.mk (List.replicate (w - s.length) '0') ++ s

/-- `Rox::write_in_rox`: `write!(f, "◎{}.{:09}", self.0 / LAMPORTS_PER_ROX,
self.0 % LAMPORTS_PER_ROX)`. -/
def Rox.write_in_rox (self : Rox) : String :=
  "◎" ++ natDecStr (self.val / LAMPORTS_PER_ROX) ++ "." ++
    zeroPad 9 (natDecStr (self.val % LAMPORTS_PER_ROX))

/-- `impl Display for Rox`: delegates to `write_in_rox`. -/
def Rox.display (self : Rox) : String := self.write_in_rox

/-- `impl Debug for Rox`: delegates to `write_in_rox`. -/
def Rox.debugRepr (self : Rox) : String := self.write_in_rox

/-- Claim C5: the default governor pins every fee-rate field to the fixed
global constant 10,000, sets `target_signatures_per_slot` to 0 and
`burn_percent` to 0. -/
theorem default_governor_fields :
    FeeRateGovernor.default.lamports_per_signature = 10000 ∧
    FeeRateGovernor.default.target_lamports_per_signature = 10000 ∧
    FeeRateGovernor.default.min_lamports_per_signature = 10000 ∧
    FeeRateGovernor.default.max_lamports_per_signature = 10000 ∧
    FeeRateGovernor.default.lamports_per_signature = CONSTANT_TRANSACTION_FEE_LAMPORTS ∧
    FeeRateGovernor.default.target_signatures_per_slot = 0 ∧
    FeeRateGovernor.default.burn_percent = 0 := by
  decide

/-- Claim C3: `calculate_fee` returns the fixed global per-transaction fee of
10,000 for every calculator value and every message, independently of the
message content and of the stored `lamports_per_signature`. -/
theorem calculate_fee_constant (fc : FeeCalculator) (m : Message) :
    fc.calculate_fee m = CONSTANT_TRANSACTION_FEE_LAMPORTS ∧
    fc.calculate_fee m = 10000 := by
  exact ⟨rfl, rfl⟩

/-- Claim C7: `clone_with_lamports_per_signature` overrides only
`lamports_per_signature`; every other field is copied verbatim. -/
theorem clone_with_lamports_per_signature_frame (g : FeeRateGovernor) (r : Nat) :
    (g.clone_with_lamports_per_signature r).lamports_per_signature = r ∧
    (g.clone_with_lamports_per_signature r).target_lamports_per_signature =
      g.target_lamports_per_signature ∧
    (g.clone_with_lamports_per_signature r).target_signatures_per_slot =
      g.target_signatures_per_slot ∧
    (g.clone_with_lamports_per_signature r).min_lamports_per_signature =
      g.min_lamports_per_signature ∧
    (g.clone_with_lamports_per_signature r).max_lamports_per_signature =
      g.max_lamports_per_signature ∧
    (g.clone_with_lamports_per_signature r).burn_percent = g.burn_percent := by
  exact ⟨rfl, rfl, rfl, rfl, rfl, rfl⟩

/-- Claim C2: `new_derived` forces every fee-rate field to the fixed constant
10,000 and the throughput target to 0, independently of the throughput
argument; consequently it is idempotent. -/
theorem new_derived_constant_and_idempotent (g : FeeRateGovernor) (t t1 t2 : Nat) :
    (FeeRateGovernor.new_derived g t).lamports_per_signature =
      CONSTANT_TRANSACTION_FEE_LAMPORTS ∧
    (FeeRateGovernor.new_derived g t).target_lamports_per_signature =
      CONSTANT_TRANSACTION_FEE_LAMPORTS ∧
    (FeeRateGovernor.new_derived g t).min_lamports_per_signature =
      CONSTANT_TRANSACTION_FEE_LAMPORTS ∧
    (FeeRateGovernor.new_derived g t).max_lamports_per_signature =
      CONSTANT_TRANSACTION_FEE_LAMPORTS ∧
    CONSTANT_TRANSACTION_FEE_LAMPORTS = 10000 ∧
    (FeeRateGovernor.new_derived g t).target_signatures_per_slot = 0 ∧
    FeeRateGovernor.new_derived (FeeRateGovernor.new_derived g t1) t2 =
      FeeRateGovernor.new_derived g t1 := by
  exact ⟨rfl, rfl, rfl, rfl, rfl, rfl, rfl⟩

/-- Claim C6: `new` ignores both of its arguments and returns exactly
`new_derived(&default(), 0)`. -/
theorem new_ignores_arguments (a b : Nat) :
    FeeRateGovernor.new a b = FeeRateGovernor.new_derived FeeRateGovernor.default 0 := by
  rfl

/-- Claim C10: `burn_percent` is the one field of the successor copied
verbatim from the base by `new_derived`; every other field is forced to a
constant independent of the base. -/
theorem new_derived_preserves_burn_percent (g : FeeRateGovernor) (t : Nat) :
    (FeeRateGovernor.new_derived g t).burn_percent = g.burn_percent ∧
    (FeeRateGovernor.new_derived g t).lamports_per_signature =
      CONSTANT_TRANSACTION_FEE_LAMPORTS ∧
    (FeeRateGovernor.new_derived g t).target_lamports_per_signature =
      CONSTANT_TRANSACTION_FEE_LAMPORTS ∧
    (FeeRateGovernor.new_derived g t).min_lamports_per_signature =
      CONSTANT_TRANSACTION_FEE_LAMPORTS ∧
    (FeeRateGovernor.new_derived g t).max_lamports_per_signature =
      CONSTANT_TRANSACTION_FEE_LAMPORTS ∧
    (FeeRateGovernor.new_derived g t).target_signatures_per_slot = 0 := by
  exact ⟨rfl, rfl, rfl, rfl, rfl, rfl⟩

theorem burn_percent_mul_bound (g : FeeRateGovernor) (fees : Nat)
    (hbp : g.burn_percent ≤ 100) : fees * g.burn_percent ≤ fees * 100 :=
  Nat.mul_le_mul_left fees hbp

/-- Claim C1: for `fees < 2^64`, `burn_percent ≤ 100` and no overflow in
`fees * burn_percent`, `burn` returns `(fees - burned, burned)` with
`burned = fees * burn_percent / 100`; the parts sum back to `fees`, and the
`burn_percent = 0` / `burn_percent = 100` corner cases behave as stated. -/
theorem burn_split (g : FeeRateGovernor) (fees : Nat)
    (hf : fees < U64_MOD) (hbp : g.burn_percent ≤ 100)
    (hov : fees * g.burn_percent < U64_MOD) :
    g.burn fees = (fees - fees * g.burn_percent / 100, fees * g.burn_percent / 100) ∧
    (g.burn fees).1 + (g.burn fees).2 = fees ∧
    (g.burn_percent = 0 → (g.burn fees).2 = 0) ∧
    (g.burn_percent = 100 → (g.burn fees).2 = fees) := by
  have hb := burn_percent_mul_bound g fees hbp
  refine ⟨?_, ?_, ?_, ?_⟩
  · simp only [FeeRateGovernor.burn, U64_MOD] at *
    rw [Prod.mk.injEq]
    generalize fees * g.burn_percent = b at *
    omega
  · simp only [FeeRateGovernor.burn, U64_MOD] at *
    generalize fees * g.burn_percent = b at *
    omega
  · intro h
    simp only [FeeRateGovernor.burn, h, Nat.mul_zero, U64_MOD]
  · intro h
    simp only [FeeRateGovernor.burn, h, U64_MOD] at *
    omega

/-- Witness for C1: the default governor with `burn_percent = 50` splits a fee
of 2 into `(1, 1)`, by `burn_split`. -/
theorem burn_split_witness :
    ({ FeeRateGovernor.default with burn_percent := 50 } : FeeRateGovernor).burn 2 = (1, 1) := by
  have h := burn_split { FeeRateGovernor.default with burn_percent := 50 } 2
    (by decide) (by decide) (by decide)
  rw [h.1]
  decide

/-- Claim C9: under `burn_percent ≤ 100` and no overflow, the burned amount
never exceeds `fees`, so the subtraction `fees - burned` cannot underflow:
the wrapped subtraction agrees with the true one.  The bound really needs the
`burn_percent ≤ 100` hypothesis: `burn_percent` is an unconstrained `u8`. -/
theorem burn_burned_le_fees (g : FeeRateGovernor) (fees : Nat)
    (hf : fees < U64_MOD) (hbp : g.burn_percent ≤ 100)
    (hov : fees * g.burn_percent < U64_MOD) :
    (g.burn fees).2 ≤ fees ∧
    (fees + U64_MOD - (g.burn fees).2) % U64_MOD = fees - (g.burn fees).2 := by
  have hb := burn_percent_mul_bound g fees hbp
  simp only [FeeRateGovernor.burn, U64_MOD] at *
  generalize fees * g.burn_percent = b at *
  omega

/-- Witness for C9: with `burn_percent = 100` and `fees = 7`, the burned part
is at most 7, by `burn_burned_le_fees`. -/
theorem burn_burned_le_fees_witness :
    (({ FeeRateGovernor.default with burn_percent := 100 } : FeeRateGovernor).burn 7).2 ≤ 7 ∧
    (7 + U64_MOD -
        (({ FeeRateGovernor.default with burn_percent := 100 } : FeeRateGovernor).burn 7).2) %
        U64_MOD =
      7 - (({ FeeRateGovernor.default with burn_percent := 100 } : FeeRateGovernor).burn 7).2 :=
  burn_burned_le_fees { FeeRateGovernor.default with burn_percent := 100 } 7
    (by decide) (by decide) (by decide)

/-- Counterexample to C4: with `burn_percent = 100` and `fees = 2^62`,
`fees * burn_percent` overflows `u64`; `burn` does not fault — it returns the
ordinary pair `(2^62, 0)`, silently misreporting the burned amount, whereas
the unwrapped mathematics would burn all of `fees = 2^62`. -/
theorem burn_overflow_wraps_silently :
    ({ FeeRateGovernor.default with burn_percent := 100 } : FeeRateGovernor).burn
        4611686018427387904 = (4611686018427387904, 0) ∧
    4611686018427387904 * 100 ≥ U64_MOD ∧
    4611686018427387904 * 100 / 100 = 4611686018427387904 := by
  refine ⟨?_, by decide, by decide⟩
  decide

/-- Claim C4 (amended): on overflow `burn` silently wraps modulo `2^64`
instead of faulting: it is total, always returns in-range `u64` components,
and the burned amount is `(fees * burn_percent mod 2^64) / 100`. -/
theorem burn_total_wrapping (g : FeeRateGovernor) (fees : Nat) :
    (g.burn fees).2 = fees * g.burn_percent % U64_MOD / 100 ∧
    (g.burn fees).1 < U64_MOD ∧
    (g.burn fees).2 < U64_MOD := by
  simp only [FeeRateGovernor.burn, U64_MOD]
  refine ⟨trivial, Nat.mod_lt _ (by decide), ?_⟩
  have h1 : fees * g.burn_percent % 18446744073709551616 < 18446744073709551616 :=
    Nat.mod_lt _ (by decide)
  omega

theorem decDigitsAux_length_le :
    ∀ fuel n k : Nat, n < 10 ^ k → (decDigitsAux fuel n).length ≤ k := by
  intro fuel
  induction fuel with
  | zero => intro n k _; simp [decDigitsAux]
  | succ fuel ih =>
    intro n k h
    match n with
    | 0 => simp [decDigitsAux]
    | m + 1 =>
      cases k with
      | zero => simp at h
      | succ k =>
        simp only [decDigitsAux, List.length_cons]
        have hlt : (m + 1) / 10 < 10 ^ k := by
          apply Nat.div_lt_of_lt_mul
          have e : (10 : Nat) ^ (k + 1) = 10 ^ k * 10 := pow_succ 10 k
          omega
        exact Nat.succ_le_succ (ih _ _ hlt)

theorem decDigitsAux_congr :
    ∀ f1 f2 n : Nat, n < 10 ^ f1 → n < 10 ^ f2 → decDigitsAux f1 n = decDigitsAux f2 n := by
  intro f1
  induction f1 with
  | zero =>
    intro f2 n h1 _
    interval_cases n
    cases f2 <;> simp [decDigitsAux]
  | succ f1 ih =>
    intro f2 n h1 h2
    match n with
    | 0 => cases f2 <;> simp [decDigitsAux]
    | m + 1 =>
      cases f2 with
      | zero => simp at h2
      | succ f2 =>
        simp only [decDigitsAux, List.cons.injEq, true_and]
        have d1 : (m + 1) / 10 < 10 ^ f1 := by
          apply Nat.div_lt_of_lt_mul
          have e : (10 : Nat) ^ (f1 + 1) = 10 ^ f1 * 10 := pow_succ 10 f1
          omega
        have d2 : (m + 1) / 10 < 10 ^ f2 := by
          apply Nat.div_lt_of_lt_mul
          have e : (10 : Nat) ^ (f2 + 1) = 10 ^ f2 * 10 := pow_succ 10 f2
          omega
        exact ih _ _ d1 d2

theorem natDecStr_eval (n f : Nat) (hn : 0 < n) (h : n < 10 ^ f) :
    natDecStr n = String.mk (decDigitsAux f n).reverse := by
  unfold natDecStr
  rw [if_neg (by omega)]
  rw [decDigitsAux_congr n f n (Nat.lt_pow_self (by norm_num) n) h]

theorem natDecStr_length_le (n k : Nat) (hk : 1 ≤ k) (h : n < 10 ^ k) :
    (natDecStr n).length ≤ k := by
  unfold natDecStr
  split
  · simpa using hk
  · simpa [String.length_mk] using decDigitsAux_length_le n n k h

theorem zeroPad_length (w : Nat) (s : String) (h : s.length ≤ w) :
    (zeroPad w s).length = w := by
  unfold zeroPad
  rw [String.length_append, String.length_mk, List.length_replicate]
  omega

/-- Claim C8: Debug and Display formatting of a `Rox` value coincide, produce
`◎<n div 10^9>.<zero-padded n mod 10^9>` with a fractional part of exactly 9
digits, and render `1_500_000_000` as `◎1.500000000`. -/
theorem rox_formatting (n : Nat) :
    Rox.debugRepr ⟨n⟩ = Rox.display ⟨n⟩ ∧
    Rox.display ⟨n⟩ = "◎" ++ natDecStr (n / LAMPORTS_PER_ROX) ++ "." ++
      zeroPad 9 (natDecStr (n % LAMPORTS_PER_ROX)) ∧
    (zeroPad 9 (natDecStr (n % LAMPORTS_PER_ROX))).length = 9 ∧
    Rox.display ⟨1500000000⟩ = "◎1.500000000" := by
  refine ⟨rfl, rfl, ?_, ?_⟩
  · refine zeroPad_length 9 _ (natDecStr_length_le _ 9 (by norm_num) ?_)
    have hmod : n % LAMPORTS_PER_ROX < LAMPORTS_PER_ROX := Nat.mod_lt _ (by decide)
    have h9 : LAMPORTS_PER_ROX = 10 ^ 9 := by decide
    omega
  · show Rox.write_in_rox ⟨1500000000⟩ = "◎1.500000000"
    unfold Rox.write_in_rox
    have hdiv : (1500000000 : Nat) / LAMPORTS_PER_ROX = 1 := by decide
    have hmod : (1500000000 : Nat) % LAMPORTS_PER_ROX = 500000000 := by decide
    rw [hdiv, hmod]
    rw [natDecStr_eval 500000000 9 (by norm_num) (by norm_num)]
    decide
